import Mathlib

/-!
Verification of the invoice lifecycle module of the `flexile` repository:
the payable-now predicate (`useIsPayable` in the frontend invoice helpers),
the deletion services (`DeleteInvoice`, `DeleteManyInvoices`), and the
admin one-off invoice creation / payee acceptance TRPC mutations
(`createAsAdmin`, `acceptPayment` in `frontend/trpc/routes/invoices.ts`).

All code is shallowly embedded as executable Lean functions: money amounts
are `Int` (the source uses arbitrary-precision `BigInt` / Rails integers,
so no modular wrap-around is involved), fallible operations return
`Except`, and database state is explicit.
-/

namespace Flexile

/-- Invoice statuses, from the `invoiceStatuses` enum used across the repo:
`received, approved, processing, payment_pending, paid, rejected, failed`. -/
inductive InvoiceStatus where
  | received
  | approved
  | processing
  | payment_pending
  | paid
  | rejected
  | failed
deriving DecidableEq, Repr

/-! ## Payable-now predicate (frontend invoice helpers)

Embeds `requiresAcceptanceByPayee` (frontend/trpc/routes/invoices.ts:26-28),
`useIsApprovedByCurrentUser` and `useIsPayable` (unnamed frontend helper
file, lines 90-112).  The frontend `Invoice` object carries the company's
`requiredInvoiceApprovals` alongside; approvals are the list of approver
user ids. -/

/-- The frontend invoice shape used by the payable-now predicate.
`requiresAcceptanceByPayee` is computed by the `list`/`get` routes from
`createdById`, `userId` and `acceptedAt`, so we carry those raw columns. -/
structure FrontInvoice where
  status : InvoiceStatus
  createdById : Nat
  userId : Nat
  acceptedAt : Option Nat
  /-- approver user ids of the invoice's approval rows -/
  approvals : List Nat
deriving Repr

/-- Embeds `requiresAcceptanceByPayee` from invoices.ts:
`invoice.createdById !== invoice.userId && invoice.acceptedAt === null`. -/
def requiresAcceptanceByPayee (invoice : FrontInvoice) : Bool :=
  invoice.createdById != invoice.userId && invoice.acceptedAt == none

/-- Embeds `useIsApprovedByCurrentUser`:
`invoice.approvals.some((approval) => approval.approver.id === user.id)`. -/
def isApprovedByCurrentUser (userId : Nat) (invoice : FrontInvoice) : Bool :=
  invoice.approvals.any (fun approverId => approverId == userId)

/-- Embeds `useIsPayable` (helper file lines 103-112):
`invoice.status === "failed" ||
 (["received", "approved"].includes(invoice.status) &&
  !invoice.requiresAcceptanceByPayee &&
  company.requiredInvoiceApprovals - invoice.approvals.length <=
    (isApprovedByCurrentUser(invoice) ? 0 : 1))`. -/
def isPayable (requiredInvoiceApprovals : Int) (userId : Nat)
    (invoice : FrontInvoice) : Bool :=
  invoice.status == .failed ||
  ((invoice.status == .received || invoice.status == .approved) &&
    !requiresAcceptanceByPayee invoice &&
    decide (requiredInvoiceApprovals - invoice.approvals.length ≤
      (if isApprovedByCurrentUser userId invoice then 0 else 1)))

/-! ## Deletion services (backend)

Embeds `DeleteInvoice#perform` (backend/app/services/delete_invoice.rb) and
`DeleteManyInvoices#perform` (backend/app/services/delete_many_invoices.rb)
over an explicit database state. -/

/-- A persisted invoice row, with the columns the deletion services read. -/
structure DBInvoice where
  id : Nat
  companyId : Nat
  externalId : String
  status : InvoiceStatus
deriving DecidableEq, Repr

/-- A dependent row (invoice approval, line item or expense) keyed by the
owning invoice. -/
structure DependentRow where
  id : Nat
  invoiceId : Nat
deriving DecidableEq, Repr

/-- An integration record (e.g. QuickBooks) tied to an invoice; carries a
`deleted` flag set by `mark_deleted!`. -/
structure IntegrationRecord where
  id : Nat
  invoiceId : Nat
  deleted : Bool
deriving DecidableEq, Repr

/-- The database state the deletion services touch. -/
structure DBState where
  invoices : List DBInvoice
  invoiceApprovals : List DependentRow
  invoiceLineItems : List DependentRow
  invoiceExpenses : List DependentRow
  integrationRecords : List IntegrationRecord
deriving DecidableEq, Repr

/-- Modelled from the spec: the `Invoice::PAID_OR_PAYING_STATES` constant is
defined in the Invoice model, which is not among the provided sources; per
the spec's deletability matrix (deny set = `{payment_pending, processing,
paid, failed}`, with `failed` and `processing` added separately in
delete_invoice.rb) it is `[paid, payment_pending]`. -/
def PAID_OR_PAYING_STATES : List InvoiceStatus :=
  [.paid, .payment_pending]

/-- Embeds `INVOICE_STATUSES_THAT_DENY_DELETION = Invoice::PAID_OR_PAYING_STATES +
[Invoice::FAILED, Invoice::PROCESSING]` (delete_invoice.rb:4). -/
def INVOICE_STATUSES_THAT_DENY_DELETION : List InvoiceStatus :=
  PAID_OR_PAYING_STATES ++ [.failed, .processing]

/-- Embeds `can_delete?` (delete_invoice.rb:30-32):
`!invoice.status.in?(INVOICE_STATUSES_THAT_DENY_DELETION)`. -/
def canDelete (invoice : DBInvoice) : Bool :=
  !(INVOICE_STATUSES_THAT_DENY_DELETION.contains invoice.status)

/-- Embeds `DeleteInvoice#perform` (delete_invoice.rb:11-25).  Under the row lock:
return (leaving the state unchanged) unless `can_delete?`; otherwise destroy
the invoice's approvals, line items and expenses, call `mark_deleted!` on
each of its integration records, and destroy the invoice itself.  The Ruby
method never raises for a non-deletable status, so the embedding is a total
function on the state. -/
def deleteInvoicePerform (invoice : DBInvoice) (s : DBState) : DBState :=
  if !canDelete invoice then s
  else
    { invoices := s.invoices.filter (fun i => i.id != invoice.id),
      invoiceApprovals := s.invoiceApprovals.filter (fun r => r.invoiceId != invoice.id),
      invoiceLineItems := s.invoiceLineItems.filter (fun r => r.invoiceId != invoice.id),
      invoiceExpenses := s.invoiceExpenses.filter (fun r => r.invoiceId != invoice.id),
      integrationRecords := s.integrationRecords.map (fun r =>
        if r.invoiceId = invoice.id then { r with deleted := true } else r) }

/-- The resolution query of `DeleteManyInvoices#perform` (line 11):
`company.invoices.where(external_id: invoice_ids)`. -/
def resolveInvoices (s : DBState) (companyId : Nat) (invoiceIds : List String) :
    List DBInvoice :=
  s.invoices.filter (fun i => i.companyId == companyId && invoiceIds.contains i.externalId)

/-- Errors raised by the bulk deletion service. -/
inductive DeleteManyError where
  | recordNotFound
deriving DecidableEq, Repr

/-- Embeds `DeleteManyInvoices#perform` (delete_many_invoices.rb:10-17): resolve
the ids against the company's invoices, raise `ActiveRecord::RecordNotFound`
if the resolved count differs from the id-list length, otherwise run
`DeleteInvoice` on each resolved invoice. -/
def deleteManyInvoicesPerform (s : DBState) (companyId : Nat)
    (invoiceIds : List String) : Except DeleteManyError DBState :=
  let invoices := resolveInvoices s companyId invoiceIds
  if invoices.length ≠ invoiceIds.length then .error .recordNotFound
  else .ok (invoices.foldl (fun st inv => deleteInvoicePerform inv st) s)

/-! ## Admin one-off invoice creation and payee acceptance (TRPC routes)

Embeds `createAsAdmin` (invoices.ts:106-229) and `acceptPayment`
(invoices.ts:231-295).  The equity split calculator
(`calculateInvoiceEquity`, from equityCalculations.ts, not among the
provided sources) is an external collaborator of both routes; it is passed
in as an abstract function `EquityCalc`, exactly as the routes call it.
Database lookups (`invoicer`, `companyWorker`, the invoice by external id),
`getNextAdminInvoiceNumber` and the current date are inputs of the
embedding; the email notification is an external side effect outside the
persisted state. -/

/-- TRPC error codes thrown by the invoice routes. -/
inductive ErrCode where
  | FORBIDDEN
  | NOT_FOUND
  | BAD_REQUEST
deriving DecidableEq, Repr

/-- A TRPC error as thrown by the routes: a code plus an optional message. -/
structure TRPCError where
  code : ErrCode
  message : Option String
deriving DecidableEq, Repr

/-- The result shape of `calculateInvoiceEquity`. -/
structure EquityResult where
  equityCents : Int
  equityOptions : Int
  equityPercentage : Int
deriving DecidableEq, Repr

/-- The argument shape of a `calculateInvoiceEquity` call (the
`companyContractor` argument identifies the contractor's equity pool and is
abstracted into the function itself). -/
structure CalcInput where
  serviceAmountCents : Int
  invoiceYear : Int
  equityCompensationEnabled : Bool
  providedEquityPercentage : Int
deriving DecidableEq, Repr

/-- The equity calculator as seen by the routes: `undefined` (here `none`)
signals failure (insufficient unvested equity / calculation error). -/
def EquityCalc : Type := CalcInput → Option EquityResult

/-- Embeds `getFlexileFeeCents` (invoices.ts:56-64): base fee of 50 cents
plus 1.5% of the total, capped at 1500 cents.  `BigInt` division truncates
toward zero; the routes only apply this to non-negative totals, where all
integer-division conventions agree. -/
def getFlexileFeeCents (totalAmountCents : Int) : Int :=
  let feeCents := 50 + totalAmountCents * 150 / 10000
  if feeCents > 1500 then 1500 else feeCents

/-- Invoice types relevant to these routes: admin one-off invoices have
`invoiceType = "other"`. -/
inductive InvoiceType where
  | services
  | other
deriving DecidableEq, Repr

/-- The validated input of `createAsAdmin` (`invoiceInputSchema`), after
the zod refinements. -/
structure CreateInput where
  description : String
  totalAmountCents : Int
  equityPercentage : Int
  minAllowedEquityPercentage : Option Int
  maxAllowedEquityPercentage : Option Int
deriving DecidableEq, Repr

/-- The invoice row inserted by `createAsAdmin` (the columns the claims are
about; identity/address columns are copied from context and omitted). -/
structure CreatedInvoice where
  invoiceType : InvoiceType
  invoiceNumber : String
  status : InvoiceStatus
  equityPercentage : Int
  equityAmountInCents : Int
  equityAmountInOptions : Int
  totalAmountInUsdCents : Int
  cashAmountInCents : Int
  flexileFeeCents : Int
  minAllowedEquityPercentage : Option Int
  maxAllowedEquityPercentage : Option Int
deriving DecidableEq, Repr

/-- The line item row inserted by `createAsAdmin` in the same transaction. -/
structure CreatedLineItem where
  description : String
  quantity : Int
  payRateInSubunits : Int
deriving DecidableEq, Repr

/-- The rows committed by `createAsAdmin` on success. -/
structure CreateResult where
  invoice : CreatedInvoice
  lineItem : CreatedLineItem
deriving DecidableEq, Repr

/-- Embeds `createAsAdmin` (invoices.ts:106-229).  Guards: the caller must
be a company administrator (FORBIDDEN), the invoicer user and the company
worker must exist (NOT_FOUND).  When the company has equity compensation
enabled, the calculator is invoked with the requested percentage; `none`
yields BAD_REQUEST "Recipient has insufficient unvested equity", and a
result whose percentage differs from the requested one yields BAD_REQUEST
"No options would be granted".  Otherwise zero equity is used.  The invoice
is inserted with `status: "received"`, `cashAmountInCents = totalAmountCents
- equityAmountInCents`, and a single line item.  An error is thrown before
the insert transaction, so on error nothing is committed. -/
def createAsAdmin (isCompanyAdministrator invoicerFound companyWorkerFound : Bool)
    (equityCompensationEnabled : Bool) (calculateInvoiceEquity : EquityCalc)
    (invoiceNumber : String) (invoiceYear : Int)
    (input : CreateInput) : Except TRPCError CreateResult :=
  if !isCompanyAdministrator then .error ⟨.FORBIDDEN, none⟩
  else if !invoicerFound then .error ⟨.NOT_FOUND, none⟩
  else if !companyWorkerFound then .error ⟨.NOT_FOUND, none⟩
  else
    let equityStep : Except TRPCError (Int × Int × Int) :=
      if equityCompensationEnabled then
        match calculateInvoiceEquity ⟨input.totalAmountCents, invoiceYear, true, input.equityPercentage⟩ with
        | none =>
          .error ⟨.BAD_REQUEST, some "Recipient has insufficient unvested equity"⟩
        | some equityResult =>
          if equityResult.equityPercentage ≠ input.equityPercentage then
            .error ⟨.BAD_REQUEST, some "No options would be granted"⟩
          else
            .ok (equityResult.equityCents, equityResult.equityOptions,
              equityResult.equityPercentage)
      else .ok (0, 0, 0)
    match equityStep with
    | .error e => .error e
    | .ok (equityAmountInCents, equityAmountInOptions, equityPercentage) =>
      let cashAmountInCents := input.totalAmountCents - equityAmountInCents
      .ok
        { invoice :=
            { invoiceType := .other
              invoiceNumber := invoiceNumber
              status := .received
              equityPercentage := equityPercentage
              equityAmountInCents := equityAmountInCents
              equityAmountInOptions := equityAmountInOptions
              totalAmountInUsdCents := input.totalAmountCents
              cashAmountInCents := cashAmountInCents
              flexileFeeCents := getFlexileFeeCents input.totalAmountCents
              minAllowedEquityPercentage := input.minAllowedEquityPercentage
              maxAllowedEquityPercentage := input.maxAllowedEquityPercentage }
          lineItem :=
            { description := input.description
              quantity := 1
              payRateInSubunits := input.totalAmountCents } }

/-- The invoice row read and updated by `acceptPayment` (the columns that
route touches; `invoiceYear` stands for
`new Date(invoice.invoiceDate).getFullYear()`). -/
structure AcceptInvoice where
  externalId : String
  userId : Nat
  invoiceType : InvoiceType
  minAllowedEquityPercentage : Option Int
  maxAllowedEquityPercentage : Option Int
  totalAmountInUsdCents : Int
  invoiceYear : Int
  acceptedAt : Option Nat
  equityPercentage : Int
  cashAmountInCents : Int
  equityAmountInCents : Int
  equityAmountInOptions : Int
deriving DecidableEq, Repr

/-- Embeds `acceptPayment` (invoices.ts:231-295).  Guards: caller must be a
company contractor (FORBIDDEN); the invoice must exist for that company
(NOT_FOUND), belong to the contractor and be of type "other" (FORBIDDEN).
When both equity-percentage bounds are set, the requested percentage must
lie within them.  The calculator is re-run; `undefined` yields BAD_REQUEST
"Error calculating equity. Please contact the administrator.", a percentage
mismatch yields BAD_REQUEST "No options would be granted".  The update sets
`acceptedAt` plus the recomputed split when both bounds are set, and only
`acceptedAt` otherwise; the returned row is the invoice after the update. -/
def acceptPayment (isCompanyContractor : Bool) (contractorUserId : Nat)
    (equityCompensationEnabled : Bool) (calculateInvoiceEquity : EquityCalc)
    (foundInvoice : Option AcceptInvoice) (inputEquityPercentage : Int)
    (now : Nat) : Except TRPCError AcceptInvoice :=
  if !isCompanyContractor then .error ⟨.FORBIDDEN, none⟩
  else
    match foundInvoice with
    | none => .error ⟨.NOT_FOUND, none⟩
    | some invoice =>
      if invoice.userId ≠ contractorUserId then .error ⟨.FORBIDDEN, none⟩
      else if invoice.invoiceType ≠ .other then .error ⟨.FORBIDDEN, none⟩
      else if (match invoice.minAllowedEquityPercentage,
          invoice.maxAllowedEquityPercentage with
        | some lo, some hi =>
          inputEquityPercentage < lo || inputEquityPercentage > hi
        | _, _ => false) then
        .error ⟨.BAD_REQUEST, some "Equity percentage is out of range"⟩
      else
        match calculateInvoiceEquity ⟨invoice.totalAmountInUsdCents, invoice.invoiceYear,
          equityCompensationEnabled, inputEquityPercentage⟩ with
        | none =>
          .error ⟨.BAD_REQUEST,
            some "Error calculating equity. Please contact the administrator."⟩
        | some equityResult =>
          if equityResult.equityPercentage ≠ inputEquityPercentage then
            .error ⟨.BAD_REQUEST, some "No options would be granted"⟩
          else
            let equityAmountInCents := equityResult.equityCents
            let cashAmountInCents :=
              invoice.totalAmountInUsdCents - equityAmountInCents
            match invoice.minAllowedEquityPercentage,
                invoice.maxAllowedEquityPercentage with
            | some _, some _ =>
              .ok { invoice with
                acceptedAt := some now
                equityPercentage := equityResult.equityPercentage
                cashAmountInCents := cashAmountInCents
                equityAmountInCents := equityAmountInCents
                equityAmountInOptions := equityResult.equityOptions }
            | _, _ => .ok { invoice with acceptedAt := some now }

/-! ## Theorems -/

/-- Restatement, in the spec's words, of the payable-now predicate: status
is `failed`, or status is in {`received`, `approved`}, the invoice does not
require payee acceptance (it was created by its own payee, or has already
been accepted), and the company's required approval count minus the
invoice's current approval count is at most 0 when the acting approver has
already approved it and at most 1 otherwise. -/
def payableNowSpec (requiredInvoiceApprovals : Int) (userId : Nat)
    (invoice : FrontInvoice) : Prop :=
  invoice.status = .failed ∨
  ((invoice.status = .received ∨ invoice.status = .approved) ∧
    ¬ (invoice.createdById ≠ invoice.userId ∧ invoice.acceptedAt = none) ∧
    requiredInvoiceApprovals - invoice.approvals.length ≤
      (if userId ∈ invoice.approvals then 0 else 1))

/-- C1: the payable-now predicate (`useIsPayable`) returns true for an
invoice exactly when its status is `failed`, or its status is in
{`received`, `approved`} and the invoice does not require payee acceptance
and the company's required approval count minus the invoice's current
approval count is at most 0 when the acting approver has already approved
it and at most 1 otherwise. -/
theorem isPayable_iff_payableNowSpec (requiredInvoiceApprovals : Int)
    (userId : Nat) (invoice : FrontInvoice) :
    isPayable requiredInvoiceApprovals userId invoice = true ↔
      payableNowSpec requiredInvoiceApprovals userId invoice := by
  have happ : isApprovedByCurrentUser userId invoice = true ↔
      userId ∈ invoice.approvals := by
    simp [isApprovedByCurrentUser, List.any_eq_true]
  unfold isPayable payableNowSpec requiresAcceptanceByPayee
  by_cases hmem : userId ∈ invoice.approvals <;>
    cases invoice.status <;>
      simp_all [happ, Decidable.not_and_iff_or_not] <;>
        (intro; tauto)

/-- Auxiliary counting fact: a list splits into the part satisfying a
boolean predicate and the part refuting it. -/
theorem length_filter_not_add_length_filter {α : Type} (l : List α)
    (p : α → Bool) :
    (l.filter fun a => !(p a)).length + (l.filter p).length = l.length := by
  induction l with
  | nil => simp
  | cons a t ih =>
    by_cases h : p a <;> simp [List.filter_cons, h] <;> omega

/-- C2: for every invoice whose status is in {`payment_pending`,
`processing`, `paid`, `failed`}, `DeleteInvoice#perform` changes nothing —
the invoice, its approvals, line items, expenses, and integration records
are all left unchanged.  The embedding is a total function (the Ruby
method returns early without raising), so the no-op is silent. -/
theorem deleteInvoice_nonDeletable_noop (invoice : DBInvoice) (s : DBState)
    (h : invoice.status = .payment_pending ∨ invoice.status = .processing ∨
      invoice.status = .paid ∨ invoice.status = .failed) :
    deleteInvoicePerform invoice s = s := by
  have hc : canDelete invoice = false := by
    rcases h with h | h | h | h <;>
      simp [canDelete, INVOICE_STATUSES_THAT_DENY_DELETION,
        PAID_OR_PAYING_STATES, h]
  simp [deleteInvoicePerform, hc]

/-- Witness for C2: deleting a concrete `paid` invoice leaves the concrete
database state unchanged. -/
theorem deleteInvoice_nonDeletable_noop_witness :
    deleteInvoicePerform ⟨1, 10, "inv-a", .paid⟩
      ⟨[⟨1, 10, "inv-a", .paid⟩], [⟨5, 1⟩], [⟨6, 1⟩], [⟨7, 1⟩], [⟨8, 1, false⟩]⟩
      = ⟨[⟨1, 10, "inv-a", .paid⟩], [⟨5, 1⟩], [⟨6, 1⟩], [⟨7, 1⟩], [⟨8, 1, false⟩]⟩ :=
  deleteInvoice_nonDeletable_noop _ _ (Or.inr (Or.inr (Or.inl rfl)))

/-- C3: for every invoice whose status is in {`received`, `approved`,
`rejected`}, `DeleteInvoice#perform` removes exactly that one invoice
(assuming its id occurs once in the table) together with its invoice
approvals, line items, and expenses, and marks each of its integration
records deleted rather than destroying them (their count is preserved). -/
theorem deleteInvoice_deletes (invoice : DBInvoice) (s : DBState)
    (h : invoice.status = .received ∨ invoice.status = .approved ∨
      invoice.status = .rejected)
    (hone : (s.invoices.filter fun i => i.id == invoice.id).length = 1) :
    (deleteInvoicePerform invoice s).invoices.length + 1 = s.invoices.length ∧
    (∀ i, i ∈ (deleteInvoicePerform invoice s).invoices ↔
      i ∈ s.invoices ∧ i.id ≠ invoice.id) ∧
    (∀ r, r ∈ (deleteInvoicePerform invoice s).invoiceApprovals ↔
      r ∈ s.invoiceApprovals ∧ r.invoiceId ≠ invoice.id) ∧
    (∀ r, r ∈ (deleteInvoicePerform invoice s).invoiceLineItems ↔
      r ∈ s.invoiceLineItems ∧ r.invoiceId ≠ invoice.id) ∧
    (∀ r, r ∈ (deleteInvoicePerform invoice s).invoiceExpenses ↔
      r ∈ s.invoiceExpenses ∧ r.invoiceId ≠ invoice.id) ∧
    (deleteInvoicePerform invoice s).integrationRecords.length
      = s.integrationRecords.length ∧
    (∀ r ∈ s.integrationRecords,
      (r.invoiceId = invoice.id →
        { r with deleted := true } ∈ (deleteInvoicePerform invoice s).integrationRecords) ∧
      (r.invoiceId ≠ invoice.id →
        r ∈ (deleteInvoicePerform invoice s).integrationRecords)) := by
  have hc : canDelete invoice = true := by
    rcases h with h | h | h <;>
      simp [canDelete, INVOICE_STATUSES_THAT_DENY_DELETION,
        PAID_OR_PAYING_STATES, h]
  unfold deleteInvoicePerform
  rw [hc]
  simp only [Bool.not_true, Bool.false_eq_true, if_false]
  refine ⟨?_, ?_, ?_, ?_, ?_, ?_, ?_⟩
  · have := length_filter_not_add_length_filter s.invoices
      (fun i => i.id == invoice.id)
    have hbne : (s.invoices.filter fun i => i.id != invoice.id)
        = s.invoices.filter fun i => !(i.id == invoice.id) := by
      simp [bne]
    simp only [hbne]
    omega
  · intro i; simp [List.mem_filter]
  · intro r; simp [List.mem_filter]
  · intro r; simp [List.mem_filter]
  · intro r; simp [List.mem_filter]
  · simp
  · intro r hr
    constructor
    · intro hid
      exact List.mem_map.mpr ⟨r, hr, by simp [hid]⟩
    · intro hid
      exact List.mem_map.mpr ⟨r, hr, by simp [hid]⟩

/-- Witness for C3: deleting a concrete `received` invoice removes it, its
dependents, and marks its integration record deleted. -/
theorem deleteInvoice_deletes_witness :
    (deleteInvoicePerform ⟨1, 10, "inv-a", .received⟩
      ⟨[⟨1, 10, "inv-a", .received⟩, ⟨2, 10, "inv-b", .paid⟩],
        [⟨5, 1⟩], [⟨6, 1⟩], [⟨7, 1⟩], [⟨8, 1, false⟩]⟩).invoices.length + 1 = 2 ∧
    (⟨8, 1, true⟩ : IntegrationRecord) ∈
      (deleteInvoicePerform ⟨1, 10, "inv-a", .received⟩
        ⟨[⟨1, 10, "inv-a", .received⟩, ⟨2, 10, "inv-b", .paid⟩],
          [⟨5, 1⟩], [⟨6, 1⟩], [⟨7, 1⟩], [⟨8, 1, false⟩]⟩).integrationRecords := by
  have h := deleteInvoice_deletes ⟨1, 10, "inv-a", .received⟩
    ⟨[⟨1, 10, "inv-a", .received⟩, ⟨2, 10, "inv-b", .paid⟩],
      [⟨5, 1⟩], [⟨6, 1⟩], [⟨7, 1⟩], [⟨8, 1, false⟩]⟩
    (Or.inl rfl) (by decide)
  exact ⟨h.1, (h.2.2.2.2.2.2 ⟨8, 1, false⟩ (by decide)).1 rfl⟩

/-- Auxiliary fact about the resolution query: the resolved invoices are a
sublist of the company's invoices, further filtered by id membership. -/
theorem resolveInvoices_eq_filter (s : DBState) (companyId : Nat)
    (invoiceIds : List String) :
    resolveInvoices s companyId invoiceIds
      = (s.invoices.filter fun i => i.companyId == companyId).filter
          (fun i => invoiceIds.contains i.externalId) := by
  unfold resolveInvoices
  rw [List.filter_filter]
  exact List.filter_congr fun a _ => Bool.and_comm _ _

/-- Auxiliary counting fact for the bulk deletion service: when the
external ids of the company's invoices are pairwise distinct, the resolved
invoices inject into the distinct ids of the request list, so the resolved
count is at most the deduplicated request length. -/
theorem resolveInvoices_length_le_dedup (s : DBState) (companyId : Nat)
    (invoiceIds : List String)
    (hnodup : ((s.invoices.filter fun i => i.companyId == companyId).map
      (fun i => i.externalId)).Nodup) :
    (resolveInvoices s companyId invoiceIds).length ≤ invoiceIds.dedup.length := by
  set m := resolveInvoices s companyId invoiceIds with hm
  have hsub : m.Sublist (s.invoices.filter fun i => i.companyId == companyId) := by
    rw [hm, resolveInvoices_eq_filter]
    exact List.filter_sublist _
  have hmapsub := hsub.map (fun i => i.externalId)
  have hmnodup : (m.map fun i => i.externalId).Nodup := hnodup.sublist hmapsub
  have hmem : ∀ e ∈ m.map fun i => i.externalId, e ∈ invoiceIds := by
    intro e he
    rcases List.mem_map.mp he with ⟨i, hi, rfl⟩
    rw [hm] at hi
    unfold resolveInvoices at hi
    have h3 := (List.mem_filter.mp hi).2
    simp only [Bool.and_eq_true, List.contains, decide_eq_true_eq,
      List.elem_eq_mem] at h3
    exact h3.2
  have hcard : (m.map fun i => i.externalId).toFinset.card
      = (m.map fun i => i.externalId).length :=
    List.toFinset_card_of_nodup hmnodup
  have hsubset : (m.map fun i => i.externalId).toFinset ⊆ invoiceIds.toFinset := by
    intro e he
    exact List.mem_toFinset.mpr (hmem e (List.mem_toFinset.mp he))
  have hlen : m.length = (m.map fun i => i.externalId).length :=
    (List.length_map _ _).symm
  calc m.length = (m.map fun i => i.externalId).toFinset.card := by
        rw [hcard, ← hlen]
    _ ≤ invoiceIds.toFinset.card := Finset.card_le_card hsubset
    _ = invoiceIds.dedup.length := List.card_toFinset invoiceIds

/-- C4: `DeleteManyInvoices#perform` with any id list containing an id that
does not resolve to an invoice of the given company raises the not-found
error and deletes nothing: the count comparison fails before any
per-invoice deletion runs (validate-then-act).  The hypothesis `hnodup`
is the database invariant that external ids are unique among the company's
invoices. -/
theorem deleteMany_unresolved_id_raises (s : DBState) (companyId : Nat)
    (invoiceIds : List String) (x : String)
    (hx : x ∈ invoiceIds)
    (hnores : ∀ i ∈ s.invoices, i.companyId = companyId → i.externalId ≠ x)
    (hnodup : ((s.invoices.filter fun i => i.companyId == companyId).map
      (fun i => i.externalId)).Nodup) :
    deleteManyInvoicesPerform s companyId invoiceIds
      = .error .recordNotFound := by
  have hlt : (resolveInvoices s companyId invoiceIds).length < invoiceIds.length := by
    set m := resolveInvoices s companyId invoiceIds with hm
    have hsub : m.Sublist (s.invoices.filter fun i => i.companyId == companyId) := by
      rw [hm, resolveInvoices_eq_filter]
      exact List.filter_sublist _
    have hmnodup : (m.map fun i => i.externalId).Nodup :=
      hnodup.sublist (hsub.map (fun i => i.externalId))
    have hmem : ∀ e ∈ m.map fun i => i.externalId, e ∈ invoiceIds ∧ e ≠ x := by
      intro e he
      rcases List.mem_map.mp he with ⟨i, hi, rfl⟩
      rw [hm] at hi
      unfold resolveInvoices at hi
      have h2 := List.mem_filter.mp hi
      have h3 := h2.2
      simp only [Bool.and_eq_true, beq_iff_eq, List.contains,
        decide_eq_true_eq, List.elem_eq_mem] at h3
      exact ⟨h3.2, hnores i h2.1 h3.1⟩
    have hcard : (m.map fun i => i.externalId).toFinset.card
        = (m.map fun i => i.externalId).length :=
      List.toFinset_card_of_nodup hmnodup
    have hsubset : (m.map fun i => i.externalId).toFinset
        ⊆ invoiceIds.toFinset.erase x := by
      intro e he
      have hme := hmem e (List.mem_toFinset.mp he)
      exact Finset.mem_erase.mpr ⟨hme.2, List.mem_toFinset.mpr hme.1⟩
    have hxf : x ∈ invoiceIds.toFinset := List.mem_toFinset.mpr hx
    calc m.length = (m.map fun i => i.externalId).toFinset.card := by
          rw [hcard, List.length_map]
      _ ≤ (invoiceIds.toFinset.erase x).card := Finset.card_le_card hsubset
      _ < invoiceIds.toFinset.card := Finset.card_erase_lt_of_mem hxf
      _ ≤ invoiceIds.length := invoiceIds.toFinset_card_le
  simp [deleteManyInvoicesPerform, Nat.ne_of_lt hlt]

/-- Witness for C4: a request naming a company invoice and a nonexistent
id raises not-found and the database is untouched. -/
theorem deleteMany_unresolved_id_raises_witness :
    deleteManyInvoicesPerform
      ⟨[⟨1, 10, "inv-a", .received⟩], [], [], [], []⟩ 10 ["inv-a", "inv-b"]
      = .error .recordNotFound :=
  deleteMany_unresolved_id_raises _ 10 _ "inv-b" (by decide) (by decide)
    (by decide)

/-- C10: `DeleteManyInvoices#perform` validates by comparing the resolved
count to the id-list length, so a list that repeats the external id of an
existing, company-owned invoice (more generally, any list with a repeated
id) raises not-found and deletes nothing, even though every listed id
resolves. -/
theorem deleteMany_duplicate_id_raises (s : DBState) (companyId : Nat)
    (invoiceIds : List String)
    (hdup : ¬ invoiceIds.Nodup)
    (_hres : ∀ x ∈ invoiceIds, ∃ i ∈ s.invoices,
      i.companyId = companyId ∧ i.externalId = x)
    (hnodup : ((s.invoices.filter fun i => i.companyId == companyId).map
      (fun i => i.externalId)).Nodup) :
    deleteManyInvoicesPerform s companyId invoiceIds
      = .error .recordNotFound := by
  have hdd : invoiceIds.dedup.length < invoiceIds.length := by
    have hsub : invoiceIds.dedup.Sublist invoiceIds := invoiceIds.dedup_sublist
    have hle : invoiceIds.dedup.length ≤ invoiceIds.length := hsub.length_le
    rcases Nat.lt_or_ge invoiceIds.dedup.length invoiceIds.length with h | h
    · exact h
    · exfalso
      have heq : invoiceIds.dedup = invoiceIds :=
        hsub.eq_of_length (Nat.le_antisymm hle h)
      exact hdup (heq ▸ invoiceIds.nodup_dedup)
  have hle := resolveInvoices_length_le_dedup s companyId invoiceIds hnodup
  have hlt : (resolveInvoices s companyId invoiceIds).length
      < invoiceIds.length := Nat.lt_of_le_of_lt hle hdd
  simp [deleteManyInvoicesPerform, Nat.ne_of_lt hlt]

/-- Witness for C10: repeating the id of an existing company invoice
raises not-found even though the id resolves. -/
theorem deleteMany_duplicate_id_raises_witness :
    deleteManyInvoicesPerform
      ⟨[⟨1, 10, "inv-a", .received⟩], [], [], [], []⟩ 10 ["inv-a", "inv-a"]
      = .error .recordNotFound :=
  deleteMany_duplicate_id_raises _ 10 _ (by decide) (by decide) (by decide)

/-- A concrete input used to exercise `createAsAdmin`. -/
def sampleCreateInput : CreateInput :=
  { description := "Consulting work", totalAmountCents := 100000,
    equityPercentage := 0, minAllowedEquityPercentage := none,
    maxAllowedEquityPercentage := none }

/-- Counterexample for C5: a concrete successful admin one-off creation
stores the invoice with status `received`, not `approved` — refuting the
claim that `createAsAdmin` creates invoices directly in status `approved`. -/
theorem createAsAdmin_not_approved_cex :
    (createAsAdmin true true true false (fun _ => none) "O-0001" 2025
      sampleCreateInput).map (fun res => res.invoice.status)
      = .ok InvoiceStatus.received ∧
    InvoiceStatus.received ≠ InvoiceStatus.approved := by
  exact ⟨rfl, by decide⟩

/-- C5 (amended): every invoice created through `createAsAdmin` is created
in status `received` (like ordinary invoices), not `approved`. -/
theorem createAsAdmin_status_received
    (isAdmin invoicerFound workerFound equityEnabled : Bool)
    (calculateInvoiceEquity : EquityCalc) (invoiceNumber : String)
    (invoiceYear : Int) (input : CreateInput) (res : CreateResult)
    (h : createAsAdmin isAdmin invoicerFound workerFound equityEnabled
      calculateInvoiceEquity invoiceNumber invoiceYear input = .ok res) :
    res.invoice.status = .received := by
  simp only [createAsAdmin] at h
  repeat' split at h <;> simp_all
  exact h ▸ rfl

/-- The rows committed by `createAsAdmin` on the sample input with equity
compensation disabled (a concrete test fixture, checked against the
function in the witnesses below). -/
def sampleCreateRes : CreateResult :=
  { invoice :=
      { invoiceType := .other, invoiceNumber := "O-0001", status := .received,
        equityPercentage := 0, equityAmountInCents := 0,
        equityAmountInOptions := 0, totalAmountInUsdCents := 100000,
        cashAmountInCents := 100000, flexileFeeCents := 1500,
        minAllowedEquityPercentage := none,
        maxAllowedEquityPercentage := none }
    lineItem :=
      { description := "Consulting work", quantity := 1,
        payRateInSubunits := 100000 } }

/-- Witness for the amended C5: a concrete creation yields status
`received`. -/
theorem createAsAdmin_status_received_witness :
    sampleCreateRes.invoice.status = .received :=
  createAsAdmin_status_received true true true false (fun _ => none)
    "O-0001" 2025 sampleCreateInput sampleCreateRes (by rfl)

/-- C6: when the company's equity compensation flag is disabled,
`createAsAdmin` stores, for any requested equity percentage, an invoice
with `equityAmountInCents = 0`, `equityAmountInOptions = 0`,
`equityPercentage = 0`, and `cashAmountInCents = totalAmountInUsdCents`
(100% cash). -/
theorem createAsAdmin_equity_disabled_zero
    (isAdmin invoicerFound workerFound : Bool)
    (calculateInvoiceEquity : EquityCalc) (invoiceNumber : String)
    (invoiceYear : Int) (input : CreateInput) (res : CreateResult)
    (h : createAsAdmin isAdmin invoicerFound workerFound false
      calculateInvoiceEquity invoiceNumber invoiceYear input = .ok res) :
    res.invoice.equityAmountInCents = 0 ∧
    res.invoice.equityAmountInOptions = 0 ∧
    res.invoice.equityPercentage = 0 ∧
    res.invoice.cashAmountInCents = res.invoice.totalAmountInUsdCents := by
  simp only [createAsAdmin] at h
  repeat' split at h <;> simp_all
  exact h ▸ ⟨rfl, rfl, rfl, by simp⟩

/-- Witness for C6: the concrete creation with equity disabled yields zero
equity and full cash. -/
theorem createAsAdmin_equity_disabled_zero_witness :
    sampleCreateRes.invoice.equityAmountInCents = 0 ∧
    sampleCreateRes.invoice.equityAmountInOptions = 0 ∧
    sampleCreateRes.invoice.equityPercentage = 0 ∧
    sampleCreateRes.invoice.cashAmountInCents
      = sampleCreateRes.invoice.totalAmountInUsdCents :=
  createAsAdmin_equity_disabled_zero true true true (fun _ => none)
    "O-0001" 2025 sampleCreateInput sampleCreateRes (by rfl)

/-- A concrete admin one-off invoice used to exercise `acceptPayment`:
owned by contractor user 7, no equity-percentage bounds. -/
def sampleAcceptInvoice : AcceptInvoice :=
  { externalId := "inv-one-off", userId := 7, invoiceType := .other,
    minAllowedEquityPercentage := none, maxAllowedEquityPercentage := none,
    totalAmountInUsdCents := 100000, invoiceYear := 2025, acceptedAt := none,
    equityPercentage := 10, cashAmountInCents := 90000,
    equityAmountInCents := 10000, equityAmountInOptions := 5 }

/-- Counterexample for C7: when the equity calculator signals failure,
`acceptPayment` fails with the message "Error calculating equity. Please
contact the administrator." — not with an "insufficient unvested equity"
message as the claim states for both operations (only `createAsAdmin` uses
"Recipient has insufficient unvested equity"). -/
theorem acceptPayment_calc_failure_message_cex :
    acceptPayment true 7 true (fun _ => none) (some sampleAcceptInvoice) 10 0
      = .error ⟨.BAD_REQUEST,
          some "Error calculating equity. Please contact the administrator."⟩ ∧
    ("Error calculating equity. Please contact the administrator." : String)
      ≠ "Recipient has insufficient unvested equity" := by
  exact ⟨rfl, by decide⟩

/-- The bounds check of `acceptPayment` passes: when both
`minAllowedEquityPercentage` and `maxAllowedEquityPercentage` are set, the
requested percentage lies within them; otherwise no check is made. -/
def boundsCheckPasses (invoice : AcceptInvoice) (pct : Int) : Bool :=
  match invoice.minAllowedEquityPercentage,
      invoice.maxAllowedEquityPercentage with
  | some lo, some hi => !(pct < lo || pct > hi)
  | _, _ => true

/-- C7 (amended): `createAsAdmin` fails with BAD_REQUEST "Recipient has
insufficient unvested equity" when the calculator signals failure and with
BAD_REQUEST "No options would be granted" when the returned percentage
differs from the requested one; `acceptPayment` fails with BAD_REQUEST
"Error calculating equity. Please contact the administrator." when the
calculator signals failure and with BAD_REQUEST "No options would be
granted" on a percentage mismatch.  In every such failure the operation
returns an error instead of committed rows: no invoice is inserted and no
invoice field is updated. -/
theorem equity_validation_failures :
    (∀ (calculateInvoiceEquity : EquityCalc) (invoiceNumber : String)
        (invoiceYear : Int) (input : CreateInput),
      calculateInvoiceEquity ⟨input.totalAmountCents, invoiceYear, true,
        input.equityPercentage⟩ = none →
      createAsAdmin true true true true calculateInvoiceEquity invoiceNumber
          invoiceYear input
        = .error ⟨.BAD_REQUEST,
            some "Recipient has insufficient unvested equity"⟩) ∧
    (∀ (calculateInvoiceEquity : EquityCalc) (invoiceNumber : String)
        (invoiceYear : Int) (input : CreateInput) (r : EquityResult),
      calculateInvoiceEquity ⟨input.totalAmountCents, invoiceYear, true,
        input.equityPercentage⟩ = some r →
      r.equityPercentage ≠ input.equityPercentage →
      createAsAdmin true true true true calculateInvoiceEquity invoiceNumber
          invoiceYear input
        = .error ⟨.BAD_REQUEST, some "No options would be granted"⟩) ∧
    (∀ (equityCompensationEnabled : Bool)
        (calculateInvoiceEquity : EquityCalc) (invoice : AcceptInvoice)
        (pct : Int) (now : Nat),
      invoice.invoiceType = .other →
      boundsCheckPasses invoice pct = true →
      calculateInvoiceEquity ⟨invoice.totalAmountInUsdCents,
        invoice.invoiceYear, equityCompensationEnabled, pct⟩ = none →
      acceptPayment true invoice.userId equityCompensationEnabled
          calculateInvoiceEquity (some invoice) pct now
        = .error ⟨.BAD_REQUEST,
            some "Error calculating equity. Please contact the administrator."⟩) ∧
    (∀ (equityCompensationEnabled : Bool)
        (calculateInvoiceEquity : EquityCalc) (invoice : AcceptInvoice)
        (pct : Int) (now : Nat) (r : EquityResult),
      invoice.invoiceType = .other →
      boundsCheckPasses invoice pct = true →
      calculateInvoiceEquity ⟨invoice.totalAmountInUsdCents,
        invoice.invoiceYear, equityCompensationEnabled, pct⟩ = some r →
      r.equityPercentage ≠ pct →
      acceptPayment true invoice.userId equityCompensationEnabled
          calculateInvoiceEquity (some invoice) pct now
        = .error ⟨.BAD_REQUEST, some "No options would be granted"⟩) := by
  refine ⟨?_, ?_, ?_, ?_⟩
  · intro calculateInvoiceEquity invoiceNumber invoiceYear input hc
    simp [createAsAdmin, hc]
  · intro calculateInvoiceEquity invoiceNumber invoiceYear input r hc hne
    simp [createAsAdmin, hc, hne]
  · intro equityCompensationEnabled calculateInvoiceEquity invoice pct now
      hty hb hc
    have hguard : (match invoice.minAllowedEquityPercentage,
        invoice.maxAllowedEquityPercentage with
      | some lo, some hi => pct < lo || pct > hi
      | _, _ => false) = false := by
      unfold boundsCheckPasses at hb
      rcases hmin : invoice.minAllowedEquityPercentage with _ | lo <;>
        rcases hmax : invoice.maxAllowedEquityPercentage with _ | hi <;>
          simp_all
    simp [acceptPayment, hty, hguard, hc]
  · intro equityCompensationEnabled calculateInvoiceEquity invoice pct now r
      hty hb hc hne
    have hguard : (match invoice.minAllowedEquityPercentage,
        invoice.maxAllowedEquityPercentage with
      | some lo, some hi => pct < lo || pct > hi
      | _, _ => false) = false := by
      unfold boundsCheckPasses at hb
      rcases hmin : invoice.minAllowedEquityPercentage with _ | lo <;>
        rcases hmax : invoice.maxAllowedEquityPercentage with _ | hi <;>
          simp_all
    simp [acceptPayment, hty, hguard, hc, hne]

/-- Witness for the amended C7: all four validation failures observed at
concrete inputs. -/
theorem equity_validation_failures_witness :
    createAsAdmin true true true true (fun _ => none) "O-0001" 2025
        sampleCreateInput
      = .error ⟨.BAD_REQUEST,
          some "Recipient has insufficient unvested equity"⟩ ∧
    createAsAdmin true true true true (fun _ => some ⟨0, 0, 55⟩) "O-0001"
        2025 sampleCreateInput
      = .error ⟨.BAD_REQUEST, some "No options would be granted"⟩ ∧
    acceptPayment true 7 true (fun _ => none) (some sampleAcceptInvoice) 10 0
      = .error ⟨.BAD_REQUEST,
          some "Error calculating equity. Please contact the administrator."⟩ ∧
    acceptPayment true 7 true (fun _ => some ⟨0, 0, 55⟩)
        (some sampleAcceptInvoice) 10 0
      = .error ⟨.BAD_REQUEST, some "No options would be granted"⟩ :=
  ⟨equity_validation_failures.1 (fun _ => none) "O-0001" 2025
      sampleCreateInput rfl,
   equity_validation_failures.2.1 (fun _ => some ⟨0, 0, 55⟩) "O-0001" 2025
      sampleCreateInput ⟨0, 0, 55⟩ rfl (by decide),
   equity_validation_failures.2.2.1 true (fun _ => none) sampleAcceptInvoice
      10 0 rfl (by rfl) rfl,
   equity_validation_failures.2.2.2 true (fun _ => some ⟨0, 0, 55⟩)
      sampleAcceptInvoice 10 0 ⟨0, 0, 55⟩ rfl (by rfl) rfl (by decide)⟩

/-- C8: every invoice written by `createAsAdmin` satisfies
`cashAmountInCents + equityAmountInCents = totalAmountInUsdCents`, and
`acceptPayment` preserves that invariant: if the stored invoice satisfies
it before a successful acceptance, the updated invoice satisfies it
afterwards (and in the branch that rewrites the split it is established
outright, since `cashAmountInCents` is recomputed as the total minus the
equity amount). -/
theorem invoice_split_invariant :
    (∀ (isAdmin invoicerFound workerFound equityEnabled : Bool)
        (calculateInvoiceEquity : EquityCalc) (invoiceNumber : String)
        (invoiceYear : Int) (input : CreateInput) (res : CreateResult),
      createAsAdmin isAdmin invoicerFound workerFound equityEnabled
          calculateInvoiceEquity invoiceNumber invoiceYear input = .ok res →
      res.invoice.cashAmountInCents + res.invoice.equityAmountInCents
        = res.invoice.totalAmountInUsdCents) ∧
    (∀ (isContractor : Bool) (contractorUserId : Nat)
        (equityCompensationEnabled : Bool)
        (calculateInvoiceEquity : EquityCalc) (invoice : AcceptInvoice)
        (pct : Int) (now : Nat) (updated : AcceptInvoice),
      acceptPayment isContractor contractorUserId equityCompensationEnabled
          calculateInvoiceEquity (some invoice) pct now = .ok updated →
      invoice.cashAmountInCents + invoice.equityAmountInCents
        = invoice.totalAmountInUsdCents →
      updated.cashAmountInCents + updated.equityAmountInCents
        = updated.totalAmountInUsdCents) := by
  constructor
  · intro isAdmin invoicerFound workerFound equityEnabled
      calculateInvoiceEquity invoiceNumber invoiceYear input res h
    simp only [createAsAdmin] at h
    repeat' split at h <;> simp_all
    subst h
    simp
  · intro isContractor contractorUserId equityCompensationEnabled
      calculateInvoiceEquity invoice pct now updated h hinv
    simp only [acceptPayment] at h
    repeat' split at h <;> try simp_all
    · subst h
      simp
    · subst h
      exact hinv

/-- The invoice row after the sample successful `acceptPayment` (no bounds
set, so only `acceptedAt` changes). -/
def sampleAcceptRes : AcceptInvoice :=
  { sampleAcceptInvoice with acceptedAt := some 0 }

/-- An equity calculator that always succeeds and echoes the requested
percentage (used as a concrete successful-run fixture). -/
def echoCalc : EquityCalc :=
  fun c => some ⟨0, 0, c.providedEquityPercentage⟩

/-- Witness for C8: the invariant observed on the concrete created invoice
and on the concrete invoice after acceptance. -/
theorem invoice_split_invariant_witness :
    sampleCreateRes.invoice.cashAmountInCents
        + sampleCreateRes.invoice.equityAmountInCents
      = sampleCreateRes.invoice.totalAmountInUsdCents ∧
    sampleAcceptRes.cashAmountInCents + sampleAcceptRes.equityAmountInCents
      = sampleAcceptRes.totalAmountInUsdCents :=
  ⟨invoice_split_invariant.1 true true true false (fun _ => none) "O-0001"
      2025 sampleCreateInput sampleCreateRes (by rfl),
   invoice_split_invariant.2 true 7 true echoCalc sampleAcceptInvoice 10 0
      sampleAcceptRes (by rfl) (by decide)⟩

/-- C9: when an invoice's `minAllowedEquityPercentage` and
`maxAllowedEquityPercentage` are not both non-null, a successful
`acceptPayment` sets only `acceptedAt` and leaves `equityPercentage`,
`cashAmountInCents`, `equityAmountInCents`, and `equityAmountInOptions`
unchanged, even though the caller supplied an equity percentage that
passed recalculation; the recomputed split is persisted only when both
bounds are set. -/
theorem acceptPayment_no_bounds_frame
    (isContractor : Bool) (contractorUserId : Nat)
    (equityCompensationEnabled : Bool)
    (calculateInvoiceEquity : EquityCalc) (invoice : AcceptInvoice)
    (pct : Int) (now : Nat) (updated : AcceptInvoice)
    (hb : invoice.minAllowedEquityPercentage = none ∨
      invoice.maxAllowedEquityPercentage = none)
    (h : acceptPayment isContractor contractorUserId
      equityCompensationEnabled calculateInvoiceEquity (some invoice) pct
      now = .ok updated) :
    updated = { invoice with acceptedAt := some now } := by
  simp only [acceptPayment] at h
  repeat' split at h <;> try simp_all

/-- Witness for C9: the concrete acceptance of the sample bound-less
invoice changes only `acceptedAt`. -/
theorem acceptPayment_no_bounds_frame_witness :
    sampleAcceptRes = { sampleAcceptInvoice with acceptedAt := some 0 } :=
  acceptPayment_no_bounds_frame true 7 true echoCalc sampleAcceptInvoice
    10 0 sampleAcceptRes (Or.inl rfl) (by rfl)

end Flexile
